import Mathlib

/-!
Verification development for the tray-vpn-monitor status-resolution engine
(src/main.py, class VPNWorker).  The core logic — interface scanning,
connectivity probing with retry, classification, emission decisions and the
debounce of the network-event listener — is embedded shallowly below:
network and filesystem effects are supplied through an explicit environment
record, the worker's mutable attributes become an explicit state record, and
Qt signal emissions become an explicit event list.
-/

namespace VPNMonitor

/-- One Qt signal emission of `VPNWorker` (src/main.py lines 13-16):
`status_changed`, `log_added`, `api_called`, `notification_requested`. -/
inductive Event where
  | statusChanged (status : String)
  | logAdded (msg : String)
  | apiCalled (count : Nat)
  | notificationRequested (title msg : String) (critical : Bool)
deriving DecidableEq, Repr

/-- The mutable attributes of `VPNWorker` relevant to the resolution logic
(src/main.py lines 20-24): `enabled`, `last_status`, `is_resolving`,
`api_count`.  `last_status` is one of the icon strings
("green"/"blue"/"red") or `none` (Python `None`). -/
structure WorkerState where
  enabled : Bool
  lastStatus : Option String
  isResolving : Bool
  apiCount : Nat
deriving DecidableEq, Repr

/-- The external world a single resolution pass observes: the outcome of
`os.listdir('/sys/class/net/')` (`none` models the raised exception at
src/main.py line 96), per-interface operstate file contents (`none` models
an unreadable/missing file, src/main.py line 64), the success of each of the
up-to-3 `urlopen` attempts of `_has_internet` (lines 51-57), the body
returned by the IP-echo request of `_get_public_ip` (`none` models a raised
exception, with `ipError` the exception text, lines 40-46), and `failure`,
which when `some e` models an unexpected exception raised inside the `try`
body of `perform_check` and caught at lines 130-133. -/
structure Env where
  listdir : Option (List String)
  operstate : String → Option String
  attempt1 : Bool
  attempt2 : Bool
  attempt3 : Bool
  ipResult : Option String
  ipError : String
  failure : Option String

/-- Per-attempt timeout of the connectivity probe: `urlopen(req, timeout=3)`
at src/main.py line 54. -/
def reachTimeoutSeconds : Nat := 3

/-- Delay between failed connectivity attempts: `time.sleep(1.2)` at
src/main.py line 57. -/
def retrySleepSeconds : Rat := 12 / 10

/-- Timeout of the IP fetch: `urlopen(req, timeout=5)` at src/main.py
line 42. -/
def ipTimeoutSeconds : Nat := 5

/-- Debounce window of the event listener: `threading.Timer(2.5, ...)` at
src/main.py line 81. -/
def debounceDelay : Rat := 5 / 2

/-- Python `str.startswith` over character lists (structural recursion, so
concrete instances evaluate). -/
def startsWithChars : List Char → List Char → Bool
  | _, [] => true
  | [], _ :: _ => false
  | c :: cs, p :: ps => c == p && startsWithChars cs ps

/-- The six ASCII whitespace characters removed by Python `str.strip()`. -/
def pyWhitespace (c : Char) : Bool :=
  c == ' ' || c == '\t' || c == '\n' || c == '\x0b' || c == '\x0c' || c == '\r'

/-- Python `str.strip()` over a character list. -/
def stripChars (l : List Char) : List Char :=
  ((l.dropWhile pyWhitespace).reverse.dropWhile pyWhitespace).reverse

/-- Python `str.lower()` over a character list (ASCII case folding; the
operstate file contents are ASCII). -/
def lowerChars (l : List Char) : List Char :=
  l.map Char.toLower

/-- Embeds `_track_api` (src/main.py lines 33-35): increment `api_count` and
emit it. -/
def trackApi (st : WorkerState) : WorkerState × List Event :=
  let st1 := { st with apiCount := st.apiCount + 1 }
  (st1, [Event.apiCalled st1.apiCount])

/-- Embeds the retry loop of `_has_internet` (src/main.py lines 51-58) over
the list of per-attempt outcomes.  Returns (result, number of attempts made,
number of 1.2-second sleeps performed).  A sleep follows a failed attempt
only when it is not the final one (`if i < 3`, line 57). -/
def attemptLoop : List Bool → Bool × Nat × Nat
  | [] => (false, 0, 0)
  | o :: rest =>
    if o then (true, 1, 0)
    else
      let r := attemptLoop rest
      (r.1, r.2.1 + 1, r.2.2 + (if rest.isEmpty then 0 else 1))

/-- The boolean result of `_has_internet` given the environment's three
attempt outcomes (the loop `for i in range(1, 4)` makes at most 3 attempts,
src/main.py line 51). -/
def hasInternetResult (env : Env) : Bool :=
  (attemptLoop [env.attempt1, env.attempt2, env.attempt3]).1

/-- Embeds `_has_internet` (src/main.py lines 48-58): emit the connectivity
log line, count one probe via `_track_api`, then run the retry loop. -/
def hasInternet (env : Env) (st : WorkerState) : Bool × WorkerState × List Event :=
  let t := trackApi st
  (hasInternetResult env, t.1,
    Event.logAdded "API CALL: Checking connectivity (google.com)" :: t.2)

/-- Embeds `_get_public_ip` (src/main.py lines 37-46): emit the fetch log
line, count one probe, then either return the stripped response body or log
the error and return `none`. -/
def getPublicIp (env : Env) (st : WorkerState) : Option String × WorkerState × List Event :=
  let t := trackApi st
  let logEv := Event.logAdded "API CALL: Fetching Public IP (icanhazip.com)"
  match env.ipResult with
  | some raw => (some (String.mk (stripChars raw.data)), t.1, logEv :: t.2)
  | none =>
      (none, t.1,
        logEv :: t.2 ++ [Event.logAdded ("API ERROR: IP fetch failed: " ++ env.ipError)])

/-- Embeds `_is_interface_active` (src/main.py lines 60-64): read
`/sys/class/net/<iface>/operstate`; an unreadable/missing file yields
`false`; otherwise the interface counts as active iff the stripped,
lowercased content differs from "down". -/
def isInterfaceActive (env : Env) (iface : String) : Bool :=
  match env.operstate iface with
  | some s => lowerChars (stripChars s.data) != "down".data
  | none => false

/-- Interface list seen by a pass: `os.listdir('/sys/class/net/')`, degraded
to `[]` on failure (src/main.py lines 94-97). -/
def interfacesOf (env : Env) : List String :=
  env.listdir.getD []

/-- VPN-candidate filter (src/main.py line 99):
`[i for i in interfaces if i.startswith(('tun', 'wg', 'ppp'))]`. -/
def vpnCandidates (interfaces : List String) : List String :=
  interfaces.filter (fun i =>
    startsWithChars i.data "tun".data || startsWithChars i.data "wg".data ||
      startsWithChars i.data "ppp".data)

/-- The interface-scan result (src/main.py line 100):
`any(self._is_interface_active(iface) for iface in vpn_ifaces) if vpn_ifaces else False`
(`any` over the empty list is `False`, so the guard is equivalent). -/
def scanActive (env : Env) : Bool :=
  (vpnCandidates (interfacesOf env)).any (isInterfaceActive env)

/-- The operstate files read by the scan, in order.  Python's `any`
short-circuits, so reading stops at the first active candidate
(src/main.py line 100). -/
def scanReads (env : Env) : List String :=
  go (vpnCandidates (interfacesOf env))
where
  go : List String → List String
    | [] => []
    | i :: rest => i :: (if isInterfaceActive env i then [] else go rest)

/-- The classification step (src/main.py lines 103-108), returning the
(icon, label) pair: green/Protected, blue/Insecure, red/Offline. -/
def classify (activeVpn isOnline : Bool) : String × String :=
  if activeVpn && isOnline then ("green", "Protected")
  else if isOnline then ("blue", "Insecure")
  else ("red", "Offline")

/-- Forced-check sources (src/main.py line 111):
`source in ["Init", "Manual", "Toggle"]`. -/
def forcedSource (source : String) : Bool :=
  ["Init", "Manual", "Toggle"].contains source

/-- The status log line (src/main.py line 123):
`f"STATUS: {label} [{source}]{ip_suffix}"`. -/
def statusLine (label source ipSuffix : String) : String :=
  "STATUS: " ++ label ++ " [" ++ source ++ "]" ++ ipSuffix

/-- Which logical probes a pass performed (one entry per call of
`_has_internet` resp. `_get_public_ip`, irrespective of internal retries). -/
structure PassTrace where
  reachChecked : Bool := false
  ipFetched : Bool := false
deriving DecidableEq, Repr

/-- Outcome of one resolution pass: the worker state after the pass, the
emitted signals in order, and the probe trace. -/
structure PassResult where
  state : WorkerState
  events : List Event
  trace : PassTrace
deriving Repr

/-- Embeds `perform_check` (src/main.py lines 86-133).  The lock (line 88)
serializes passes; a single pass, run in isolation as here, is its body.
When `env.failure = some e` the `try` body raises and the handler at lines
130-133 runs.  The delayed notification timer (lines 125-128) is modelled by
its eventual emission.  Note `is_resolving` is set to `True` at lines 89-91
before the emission condition at line 113 reads it. -/
def performCheck (env : Env) (source : String) (st : WorkerState) : PassResult :=
  if st.enabled then
    let resolvingEvents := if st.isResolving then [] else [Event.statusChanged "yellow"]
    let st1 := { st with isResolving := true }
    match env.failure with
    | some e =>
        { state := { st1 with isResolving := false }
          events := resolvingEvents ++
            [Event.logAdded ("CRITICAL ERROR: " ++ e), Event.statusChanged "red"]
          trace := {} }
    | none =>
        let activeVpn := scanActive env
        let hi := hasInternet env st1
        let isOnline := hi.1
        let st2 := hi.2.1
        let probeEvents := hi.2.2
        let cl := classify activeVpn isOnline
        let status := cl.1
        let label := cl.2
        let stateChanged := st2.lastStatus != some status
        let forced := forcedSource source
        if stateChanged || st2.isResolving || forced then
          let doFetch := status == "blue" || (source == "Manual" && isOnline)
          let fetchRes :=
            if doFetch then
              let gp := getPublicIp env st2
              let ipSuffix :=
                match gp.1 with
                | some ip => if ip = "" then "" else " (IP: " ++ ip ++ ")"
                | none => ""
              (ipSuffix, gp.2.1, gp.2.2)
            else ("", st2, [])
          let st4 := { fetchRes.2.1 with lastStatus := some status, isResolving := false }
          let emitEvents :=
            Event.statusChanged status :: fetchRes.2.2 ++
              [Event.logAdded (statusLine label source fetchRes.1)]
          let notifEvents :=
            if status == "blue" && (stateChanged || forced) then
              [Event.notificationRequested "⚠️ VPN DROPPED" "Traffic is now EXPOSED!" true]
            else []
          { state := st4
            events := resolvingEvents ++ probeEvents ++ emitEvents ++ notifEvents
            trace := { reachChecked := true, ipFetched := doFetch } }
        else
          { state := st2
            events := resolvingEvents ++ probeEvents
            trace := { reachChecked := true } }
  else { state := st, events := [], trace := {} }

/-- State of the listener's debounce machinery (src/main.py lines 72-82):
the arm time of the pending one-shot timer, if any, and the times at which
past timers fired (each fire invokes `perform_check(source="Auto")`). -/
structure DebounceState where
  pending : Option Rat
  fires : List Rat
deriving DecidableEq, Repr

/-- Processing one qualifying notification line at time `t` (src/main.py
lines 76-82): cancel the pending timer when it has not yet fired (it fires
`debounceDelay` after being armed), record its fire otherwise, and arm a
fresh one-shot timer. -/
def debounceStep (s : DebounceState) (t : Rat) : DebounceState :=
  match s.pending with
  | none => { s with pending := some t }
  | some t0 =>
      if t ≤ t0 + debounceDelay then { s with pending := some t }
      else { pending := some t, fires := s.fires ++ [t0 + debounceDelay] }

/-- Folds the debounce step over a burst of qualifying-line times. -/
def debounceRun (ts : List Rat) : DebounceState :=
  ts.foldl debounceStep { pending := none, fires := [] }

/-- All times at which the debounce timer fires for a burst of qualifying
lines followed by silence: the fires observed during the burst plus the
fire of the timer still pending when the burst ends. -/
def debounceFires (ts : List Rat) : List Rat :=
  let s := debounceRun ts
  match s.pending with
  | some t0 => s.fires ++ [t0 + debounceDelay]
  | none => s.fires

/-! Concrete environments and states used in counterexamples and witnesses. -/

/-- Environment with no network interfaces, all connectivity attempts
succeeding, and a successful IP fetch. -/
def envOnlineNoVpn : Env :=
  { listdir := some [], operstate := fun _ => none,
    attempt1 := true, attempt2 := true, attempt3 := true,
    ipResult := some "1.2.3.4", ipError := "", failure := none }

/-- Environment in which the `try` body of `perform_check` raises. -/
def envFailing : Env :=
  { envOnlineNoVpn with failure := some "boom" }

/-- An idle enabled worker that last observed classification Insecure. -/
def stIdleBlue : WorkerState :=
  { enabled := true, lastStatus := some "blue", isResolving := false, apiCount := 0 }

/-- A freshly started enabled worker. -/
def stFresh : WorkerState :=
  { enabled := true, lastStatus := none, isResolving := false, apiCount := 0 }

/-- A disabled worker. -/
def stDisabled : WorkerState :=
  { enabled := false, lastStatus := some "green", isResolving := false, apiCount := 7 }

/-- C1: the classification computed by a resolution pass from the probed
inputs `hasActiveVpn` and `isOnline` follows the table
(true, true) → Protected; (false, true) → Insecure; (*, false) → Offline. -/
theorem c1_classification_table :
    classify true true = ("green", "Protected") ∧
    classify false true = ("blue", "Insecure") ∧
    ∀ v : Bool, classify v false = ("red", "Offline") := by
  refine ⟨rfl, rfl, fun v => ?_⟩
  cases v <;> rfl

/-- C4: the retry loop of `_has_internet` makes at most 3 attempts, returns
true at the first successful attempt (making exactly that many attempts),
returns false iff all 3 attempts fail, and sleeps between consecutive failed
attempts but not after the final one (one sleep fewer than attempts made);
the per-attempt timeout is 3 seconds and the inter-attempt sleep is 1.2
seconds. -/
theorem c4_reachability_retry_loop :
    (∀ a b c : Bool,
      (attemptLoop [a, b, c]).2.1 ≤ 3 ∧
      (attemptLoop [a, b, c]).1 = (a || b || c) ∧
      ((attemptLoop [a, b, c]).1 = false ↔ a = false ∧ b = false ∧ c = false) ∧
      (attemptLoop [a, b, c]).2.1 = (if a then 1 else if b then 2 else 3) ∧
      (attemptLoop [a, b, c]).2.2 = (attemptLoop [a, b, c]).2.1 - 1) ∧
    reachTimeoutSeconds = 3 ∧ retrySleepSeconds = 12 / 10 ∧
    ∀ env st, (hasInternet env st).1 = (attemptLoop [env.attempt1, env.attempt2, env.attempt3]).1 :=
  ⟨by decide, rfl, rfl, fun _ _ => rfl⟩

/-- C6: when the body of a pass raises unexpectedly, the exception is caught
inside `perform_check` (the embedded pass is a total function), a critical
log entry is emitted, `is_resolving` is cleared, and the Offline status
(red) is emitted. -/
theorem c6_exception_handling (env : Env) (source : String) (st : WorkerState) (e : String)
    (hen : st.enabled = true) (hf : env.failure = some e) :
    (performCheck env source st).state.isResolving = false ∧
    Event.logAdded ("CRITICAL ERROR: " ++ e) ∈ (performCheck env source st).events ∧
    Event.statusChanged "red" ∈ (performCheck env source st).events := by
  simp [performCheck, hen, hf]

/-- Witness for C6 at a concrete failing environment. -/
theorem c6_exception_handling_witness :
    (performCheck envFailing "Auto" stIdleBlue).state.isResolving = false ∧
    Event.logAdded ("CRITICAL ERROR: " ++ "boom") ∈ (performCheck envFailing "Auto" stIdleBlue).events ∧
    Event.statusChanged "red" ∈ (performCheck envFailing "Auto" stIdleBlue).events :=
  c6_exception_handling envFailing "Auto" stIdleBlue "boom" rfl rfl

/-- C3: the probe counter moves by exactly one per logical probe performed
during a pass — one for a reachability check, one for an IP fetch —
independent of the internal retry attempts; in particular `_has_internet`
increments it exactly once however its three attempts turn out. -/
theorem c3_probe_accounting (env : Env) (source : String) (st : WorkerState) :
    ((performCheck env source st).state.apiCount =
      st.apiCount + (if (performCheck env source st).trace.reachChecked then 1 else 0)
        + (if (performCheck env source st).trace.ipFetched then 1 else 0)) ∧
    (hasInternet env st).2.1.apiCount = st.apiCount + 1 := by
  refine ⟨?_, rfl⟩
  cases hen : st.enabled <;> cases hf : env.failure <;> cases hip : env.ipResult <;>
      simp [performCheck, hasInternet, trackApi, getPublicIp, hen, hf, hip] <;>
    try (split <;> simp)

/-- C2 is refuted: a pass with `source = "Auto"`, an unchanged
classification, and `is_resolving = false` beforehand still emits status
updates and a log line, because `perform_check` sets `is_resolving = True`
at lines 89-91 before the emission condition at line 113 reads it. -/
theorem c2_suppression_counterexample :
    stIdleBlue.isResolving = false ∧
    stIdleBlue.lastStatus = some "blue" ∧
    (performCheck envOnlineNoVpn "Auto" stIdleBlue).state.lastStatus = some "blue" ∧
    Event.statusChanged "blue" ∈ (performCheck envOnlineNoVpn "Auto" stIdleBlue).events ∧
    Event.logAdded (statusLine "Insecure" "Auto" " (IP: 1.2.3.4)")
      ∈ (performCheck envOnlineNoVpn "Auto" stIdleBlue).events := by
  decide

/-- C2 (amended): on a pass with `source = "Auto"` whose classification
equals the previous one and whose `is_resolving` flag was false beforehand,
suppression never happens: the pass emits the transient resolving status,
the (unchanged) classification status, and a STATUS log line, because
`is_resolving` is set at the start of the pass before the emission
condition reads it. -/
theorem c2_no_suppression (env : Env) (st : WorkerState)
    (hen : st.enabled = true) (hf : env.failure = none)
    (hres : st.isResolving = false)
    (_hlast : st.lastStatus = some (classify (scanActive env) (hasInternetResult env)).1) :
    Event.statusChanged "yellow" ∈ (performCheck env "Auto" st).events ∧
    Event.statusChanged (classify (scanActive env) (hasInternetResult env)).1
      ∈ (performCheck env "Auto" st).events ∧
    ∃ lbl sfx, Event.logAdded (statusLine lbl "Auto" sfx)
      ∈ (performCheck env "Auto" st).events := by
  simp only [performCheck, hen, hf, hres, if_true]
  refine ⟨?_, ?_, ?_⟩
  · simp [hasInternet, trackApi]
  · simp [hasInternet, trackApi]
  · simp [hasInternet, trackApi]
    split
    · exact ⟨_, _, Or.inr (Or.inr rfl)⟩
    · exact ⟨_, _, Or.inr (Or.inr rfl)⟩

/-- Witness for the amended C2 at a concrete unchanged-classification
Auto pass. -/
theorem c2_no_suppression_witness :
    Event.statusChanged "yellow" ∈ (performCheck envOnlineNoVpn "Auto" stIdleBlue).events ∧
    Event.statusChanged (classify (scanActive envOnlineNoVpn) (hasInternetResult envOnlineNoVpn)).1
      ∈ (performCheck envOnlineNoVpn "Auto" stIdleBlue).events ∧
    ∃ lbl sfx, Event.logAdded (statusLine lbl "Auto" sfx)
      ∈ (performCheck envOnlineNoVpn "Auto" stIdleBlue).events :=
  c2_no_suppression envOnlineNoVpn stIdleBlue rfl rfl rfl (by decide)

/-- Environment with an active `wg0` interface and working connectivity, so
a pass classifies Protected. -/
def envProtected : Env :=
  { listdir := some ["wg0"],
    operstate := fun i => if i = "wg0" then some "up" else none,
    attempt1 := true, attempt2 := true, attempt3 := true,
    ipResult := some "1.2.3.4", ipError := "", failure := none }

/-- C7 is refuted: a Manual pass that classifies Protected (not Insecure)
still fetches the public IP, because the condition at line 119 is
`current_status == 'blue' or (source == "Manual" and is_online)`. -/
theorem c7_fetch_counterexample :
    (performCheck envProtected "Manual" stFresh).state.lastStatus = some "green" ∧
    Event.statusChanged "green" ∈ (performCheck envProtected "Manual" stFresh).events ∧
    (performCheck envProtected "Manual" stFresh).trace.ipFetched = true ∧
    Event.logAdded "API CALL: Fetching Public IP (icanhazip.com)"
      ∈ (performCheck envProtected "Manual" stFresh).events := by
  decide

/-- C7 (amended): on an emitting pass (every enabled, non-failing pass
emits), the public-IP fetch is attempted iff the classification is Insecure
(blue) or the source is Manual with connectivity online. -/
theorem c7_ip_fetch_condition (env : Env) (source : String) (st : WorkerState)
    (hen : st.enabled = true) (hf : env.failure = none) :
    (performCheck env source st).trace.ipFetched =
      ((classify (scanActive env) (hasInternetResult env)).1 == "blue"
        || (source == "Manual" && hasInternetResult env)) := by
  simp [performCheck, hasInternet, trackApi, hen, hf]

/-- Witness for the amended C7: the Manual Protected pass fetches the IP
and the condition evaluates to true. -/
theorem c7_ip_fetch_condition_witness :
    (performCheck envProtected "Manual" stFresh).trace.ipFetched =
      ((classify (scanActive envProtected) (hasInternetResult envProtected)).1 == "blue"
        || ("Manual" == "Manual" && hasInternetResult envProtected)) :=
  c7_ip_fetch_condition envProtected "Manual" stFresh rfl rfl

/-- Characterization of `_is_interface_active`: an interface counts as
active exactly when its operstate file is readable and its stripped,
lowercased content differs from "down". -/
theorem isInterfaceActive_iff (env : Env) (i : String) :
    isInterfaceActive env i = true ↔
      ∃ s, env.operstate i = some s ∧ lowerChars (stripChars s.data) ≠ "down".data := by
  unfold isInterfaceActive
  cases h : env.operstate i <;> simp [bne_iff_ne]

/-- Environment whose only interface is a tun device with operational state
"unknown" (the usual operstate of tun devices on Linux). -/
def envUnknownTun : Env :=
  { listdir := some ["tun0"],
    operstate := fun i => if i = "tun0" then some "unknown" else none,
    attempt1 := true, attempt2 := true, attempt3 := true,
    ipResult := some "1.2.3.4", ipError := "", failure := none }

/-- C5 is refuted: the scan reports an active VPN when the only candidate
interface has operational state "unknown", because line 63 tests
`!= "down"`; the claim says an unknown operational state counts as not
up, which would force a `false` result here. -/
theorem c5_unknown_counterexample :
    vpnCandidates (interfacesOf envUnknownTun) = ["tun0"] ∧
    envUnknownTun.operstate "tun0" = some "unknown" ∧
    scanActive envUnknownTun = true := by
  decide

/-- C5 (amended): the scan returns true iff some interface named with a
"tun"/"wg"/"ppp" prefix has a readable operstate whose stripped, lowercased
content is not "down" (so "unknown" counts as up, while unreadable or
missing state counts as not up); an empty candidate set yields false with
no operstate reads, and an enumeration failure degrades to the empty
interface list; the scan is a total function (never throws). -/
theorem c5_interface_scan (env : Env) :
    (scanActive env = true ↔
      ∃ i ∈ vpnCandidates (interfacesOf env),
        ∃ s, env.operstate i = some s ∧ lowerChars (stripChars s.data) ≠ "down".data) ∧
    (vpnCandidates (interfacesOf env) = [] → scanActive env = false ∧ scanReads env = []) ∧
    (env.listdir = none → interfacesOf env = [] ∧ scanActive env = false) := by
  refine ⟨?_, fun h => ⟨?_, ?_⟩, fun h => ⟨?_, ?_⟩⟩
  · simp [scanActive, List.any_eq_true, isInterfaceActive_iff]
  · simp [scanActive, h]
  · unfold scanReads
    rw [h]
    rfl
  · simp [interfacesOf, h]
  · simp [scanActive, interfacesOf, vpnCandidates, h]

/-- Witness for the amended C5 at an environment with no candidate
interfaces. -/
theorem c5_interface_scan_witness :
    scanActive envOnlineNoVpn = false ∧ scanReads envOnlineNoVpn = [] :=
  (c5_interface_scan envOnlineNoVpn).2.1 (by decide)

/-- Stepping the fold over a burst in which every line arrives within the
debounce window of the previous one never fires the timer: the pending
timer just tracks the most recent line. -/
theorem debounce_fold_within (ts : List Rat) :
    ∀ (t0 : Rat) (F : List Rat),
      List.Chain (fun a b => a ≤ b ∧ b ≤ a + debounceDelay) t0 ts →
      ts.foldl debounceStep { pending := some t0, fires := F } =
        { pending := some ((t0 :: ts).getLast (List.cons_ne_nil t0 ts)), fires := F } := by
  induction ts with
  | nil => intro t0 F _; rfl
  | cons t1 rest ih =>
      intro t0 F hch
      rw [List.chain_cons] at hch
      obtain ⟨⟨_, hwin⟩, hrest⟩ := hch
      have hstep : debounceStep { pending := some t0, fires := F } t1 =
          { pending := some t1, fires := F } := by
        simp [debounceStep, hwin]
      rw [List.foldl_cons, hstep, ih t1 F hrest]
      simp [List.getLast_cons]

/-- C8: a burst of N ≥ 1 qualifying lines in which each consecutive pair is
at most 2.5 seconds apart, followed by silence, fires the debounce timer
exactly once — i.e. triggers exactly one `perform_check(source="Auto")` —
2.5 seconds after the last line of the burst; each qualifying line cancels
the pending timer and re-arms a fresh 2.5-second one-shot timer
(`debounceStep`). -/
theorem c8_debounce_collapse (t : Rat) (ts : List Rat)
    (h : List.Chain (fun a b => a ≤ b ∧ b ≤ a + debounceDelay) t ts) :
    debounceFires (t :: ts) =
      [(t :: ts).getLast (List.cons_ne_nil t ts) + debounceDelay] := by
  unfold debounceFires debounceRun
  rw [List.foldl_cons]
  have h0 : debounceStep { pending := none, fires := [] } t =
      { pending := some t, fires := [] } := rfl
  rw [h0, debounce_fold_within ts t [] h]
  rfl

/-- Witness for C8: three lines at times 0, 1, 2 yield a single fire at
time 2 + 2.5. -/
theorem c8_debounce_collapse_witness :
    debounceFires [0, 1, 2] = [2 + debounceDelay] :=
  c8_debounce_collapse 0 [1, 2]
    (by
      refine List.Chain.cons ⟨?_, ?_⟩ (List.Chain.cons ⟨?_, ?_⟩ List.Chain.nil) <;>
        norm_num [debounceDelay])

/-- C10: a pass invoked while monitoring is disabled returns immediately:
no events are emitted, no probe runs, and the state is unchanged. -/
theorem c10_disabled_noop (env : Env) (source : String) (st : WorkerState)
    (h : st.enabled = false) :
    performCheck env source st = { state := st, events := [], trace := {} } := by
  simp [performCheck, h]

/-- Witness for C10 at a concrete disabled state. -/
theorem c10_disabled_noop_witness :
    performCheck envOnlineNoVpn "Manual" stDisabled =
      { state := stDisabled, events := [], trace := {} } :=
  c10_disabled_noop envOnlineNoVpn "Manual" stDisabled rfl

end VPNMonitor
